import Mathlib

/-!
Shallow embedding of the clinical-intelligence Streamlit app
(`src/08_streamlit_clinical_intelligence_app.py`).

Python strings are modelled by `String` (a sequence of code points, matching
Python `str` slicing and concatenation); pandas `DataFrame`s of search hits by
`List SearchResult`; the remote Snowflake session by explicit function
parameters (`remote`, `complete`, `search`) so every remote outcome can be
quantified over; a raised Python exception by `Except.error`.
-/

/-- One search hit, as produced by `pd.DataFrame(results_json)` from the
Cortex Search response (columns requested at source line 263). -/
structure SearchResult where
  PATIENT_ID : Int
  NOTE_TEXT : String
  NOTE_TYPE : String
  NOTE_DATE : String
  AUTHOR : String
deriving DecidableEq

/-- The single-quote character (code point 39), written via `Char.ofNat`. -/
def squote : Char := Char.ofNat 39

/-- One-character string holding a single quote. -/
def sqStr : String := String.mk [squote]

/-- Python slicing `s[:n]`: the first `n` code points of `s`. -/
def pySlice (s : String) (n : Nat) : String := String.mk (s.data.take n)

/-- Character-level model of Python `s.replace(squote, squote*2)`:
every single quote is doubled, other characters are kept. -/
def sqlEscapeChars : List Char → List Char
  | [] => []
  | c :: cs =>
    if c = squote then c :: c :: sqlEscapeChars cs
    else c :: sqlEscapeChars cs

/-- Model of `prompt.replace` at source line 351: double every single quote. -/
def sqlEscape (s : String) : String := String.mk (sqlEscapeChars s.data)

/-- The `filter_clause` built at source lines 253-255.  Python truthiness:
`if note_type_filter and note_type_filter != "All"` is false for `None`,
for the empty string and for `"All"`; otherwise the clause interpolates the
filter value raw (no escaping). -/
def buildFilterClause (note_type_filter : Option String) : String :=
  match note_type_filter with
  | none => ""
  | some f =>
    if f ≠ "" ∧ f ≠ "All" then
      ", \"filter\": \x7b\"@eq\": \x7b\"NOTE_TYPE\": \"" ++ f ++ "\"\x7d\x7d"
    else ""

/-- The JSON request text placed between the SQL single quotes at source
lines 261-266.  `query` and the filter clause are interpolated raw by the
f-string; `limit` is rendered in decimal. -/
def buildSearchPayload (query : String) (note_type_filter : Option String)
    (limit : Nat) : String :=
  "\x7b\n                \"query\": \"" ++ query
    ++ "\",\n                \"columns\": [\"NOTE_TEXT\", \"PATIENT_ID\", \"NOTE_TYPE\", \"NOTE_DATE\", \"AUTHOR\"],\n                \"limit\": "
    ++ toString limit
    ++ "\n                " ++ buildFilterClause note_type_filter
    ++ "\n            \x7d"

/-- The full SQL string built by `search_clinical_notes` (source lines
257-269). -/
def buildSearchSql (query : String) (note_type_filter : Option String)
    (limit : Nat) : String :=
  "\n    SELECT PARSE_JSON(\n        SNOWFLAKE.CORTEX.SEARCH_PREVIEW(\n            "
    ++ sqStr ++ "CLINICAL_NOTES_SEARCH" ++ sqStr ++ ",\n            "
    ++ sqStr ++ buildSearchPayload query note_type_filter limit ++ sqStr
    ++ "\n        )\n    )[" ++ sqStr ++ "results" ++ sqStr ++ "] as results\n    "

/-- Post-processing of `session.sql(sql).collect()` at source lines 271-276.
The collected rows are modelled as a list of the `RESULTS` column values
(`none` = SQL NULL); `parse` models `json.loads` followed by
`pd.DataFrame` (`none` = `json.loads` raises on an unparseable payload).
The source checks Python truthiness `result and result[0][RESULTS]`, so an
empty row list, a NULL and an empty string all yield an empty DataFrame;
an unparseable non-empty payload raises out of the function. -/
def search_post (parse : String → Option (List SearchResult))
    (result : List (Option String)) : Except String (List SearchResult) :=
  match result with
  | [] => Except.ok []
  | r :: _ =>
    match r with
    | none => Except.ok []
    | some s =>
      if s = "" then Except.ok []
      else
        match parse s with
        | some rows => Except.ok rows
        | none => Except.error "json.loads: malformed payload"

/-- Model of `search_clinical_notes` (source lines 249-276).  `remote` models
`session.sql(sql).collect()`: it receives the constructed SQL text and
either raises (`Except.error`, e.g. a server-side `PARSE_JSON` failure) or
returns the collected rows.  There is no `try/except` in the source, so a
raised error propagates. -/
def search_clinical_notes (remote : String → Except String (List (Option String)))
    (parse : String → Option (List SearchResult))
    (query : String) (note_type_filter : Option String) (limit : Nat) :
    Except String (List SearchResult) :=
  match remote (buildSearchSql query note_type_filter limit) with
  | Except.error e => Except.error e
  | Except.ok result => search_post parse result

/-- The MRN-lookup SQL built at source line 511: the stripped MRN text is
interpolated raw between single quotes. -/
def buildMrnSql (mrn : String) : String :=
  "SELECT PATIENT_ID FROM PEDIATRIC_ML.CLINICAL_DATA.PATIENTS WHERE MRN = "
    ++ sqStr ++ mrn ++ sqStr

/-- Outcome of the Cortex COMPLETE round trip at source line 355:
`collect()` raises, returns no row, or returns a row whose `SUMMARY`
column holds the model output. -/
inductive CompleteOutcome where
  | raised (e : String)
  | noRows
  | row (summary : String)
deriving DecidableEq

/-- The `context` string built at source lines 334-339: the first 3 results,
each note text sliced to its first 500 code points, joined with numbered
labels (`iterrows` on the head-3 of a range-indexed frame yields indices
0,1,2). -/
def mkContext (results : List SearchResult) : String :=
  String.intercalate "\n\n"
    (((results.take 3).enum).map
      (fun p => "Note " ++ toString (p.1 + 1) ++ ": " ++ pySlice p.2.NOTE_TEXT 500))

/-- The prompt template built at source lines 341-346, embedding the original
query and the numbered context. -/
def mkPrompt (query : String) (results : List SearchResult) : String :=
  "Based on the following clinical notes, provide a concise summary answering the query: \""
    ++ query ++ "\"\n\nClinical Notes:\n" ++ mkContext results ++ "\n\nSummary:"

/-- Text of the completion SQL before the prompt literal (source lines
348-353), ending with the opening single quote. -/
def completeSqlHead : String :=
  "\n    SELECT SNOWFLAKE.CORTEX.COMPLETE(\n        " ++ sqStr ++ "llama3-70b" ++ sqStr
    ++ ",\n        " ++ sqStr

/-- Text of the completion SQL after the prompt literal: the closing single
quote and the rest of the statement. -/
def completeSqlTail : String := sqStr ++ "\n    ) as summary\n    "

/-- The full completion SQL (source lines 348-353): the prompt is escaped by
doubling single quotes and spliced between quotes. -/
def buildCompleteSql (prompt : String) : String :=
  completeSqlHead ++ sqlEscape prompt ++ completeSqlTail

/-- Model of `generate_ai_summary` (source lines 329-356).  The second
component of the result is the list of SQL texts sent to the remote
session (the call log); the empty-input branch at lines 331-332 issues no
call.  `result[0][SUMMARY] if result else "Unable to generate summary."`
handles only the no-row case; a raised error propagates (no `try/except`). -/
def generate_ai_summary (complete : String → CompleteOutcome) (query : String)
    (search_results : List SearchResult) : Except String String × List String :=
  if search_results.isEmpty then
    (Except.ok "No results found for your query.", [])
  else
    let sql := buildCompleteSql (mkPrompt query search_results)
    match complete sql with
    | CompleteOutcome.raised e => (Except.error e, [sql])
    | CompleteOutcome.noRows => (Except.ok "Unable to generate summary.", [sql])
    | CompleteOutcome.row s => (Except.ok s, [sql])

/-- First-seen-per-key deduplication: keeps the first row of each patient id
not already in `seen`.  This is the set of representative rows chosen by
`groupby(PATIENT_ID).first()` (source line 557) when no field is null:
pandas keeps, per group, the first row in the frame's order. -/
def dedupFirstBy (seen : List Int) : List SearchResult → List SearchResult
  | [] => []
  | r :: rs =>
    if r.PATIENT_ID ∈ seen then dedupFirstBy seen rs
    else r :: dedupFirstBy (r.PATIENT_ID :: seen) rs

/-- Insertion into a list sorted by ascending patient id. -/
def insertById (r : SearchResult) : List SearchResult → List SearchResult
  | [] => [r]
  | x :: xs =>
    if r.PATIENT_ID ≤ x.PATIENT_ID then r :: x :: xs
    else x :: insertById r xs

/-- Sort by ascending patient id.  `DataFrame.groupby` with its default
`sort=True` (source line 557) returns the groups ordered by the group key,
so after `.first().reset_index()` the frame is ordered by `PATIENT_ID`,
not by the upstream relevance order. -/
def sortById : List SearchResult → List SearchResult
  | [] => []
  | r :: rs => insertById r (sortById rs)

/-- Post-processing of the raw similarity hits (source lines 551-558).
A zero-hit search returns a column-less empty DataFrame (source lines
275-276: `pd.DataFrame()` or `pd.DataFrame([])`), so the column selection
`similar_results[similar_results[PATIENT_ID] != patient_id]` at line 551
raises `KeyError: PATIENT_ID`; a non-empty hit frame has the requested
columns.  Otherwise: drop rows of the index patient, keep one
representative row per patient id (first in upstream order), order by
patient id (`groupby` sorts the keys), truncate to `max_similar`.  When
the filtered frame is empty the source skips the grouping and shows
nothing, which coincides with the empty output of this function. -/
def similarityAggregate (raw : List SearchResult) (patient_id : Int)
    (max_similar : Nat) : Except String (List SearchResult) :=
  if raw.isEmpty then Except.error "KeyError: PATIENT_ID"
  else
    let filtered := raw.filter (fun r => decide (r.PATIENT_ID ≠ patient_id))
    Except.ok ((sortById (dedupFirstBy [] filtered)).take max_similar)

/-- The Similar Patients workflow (source lines 548-558): slice the index
patient's latest note text to 500 code points, search with limit
`2 * max_similar` and no note-type filter, then post-process (raising
`KeyError` on a zero-hit search, see `similarityAggregate`).  The second
component records the (query, filter, limit) triple passed to
`search_clinical_notes`. -/
def find_similar (search : String → Option String → Nat → List SearchResult)
    (note_text : String) (patient_id : Int) (max_similar : Nat) :
    Except String (List SearchResult) × (String × Option String × Nat) :=
  let q := pySlice note_text 500
  let lim := max_similar * 2
  let similar_results := search q none lim
  (similarityAggregate similar_results patient_id max_similar, (q, none, lim))

/-- First row of `l` whose patient id is `pid` (pandas keeps this row, column
by column, in `groupby.first()` when no value is null). -/
def firstWithId (pid : Int) (l : List SearchResult) : Option SearchResult :=
  l.find? (fun x => decide (x.PATIENT_ID = pid))

/-- Modelled from the spec: the state of the `st.cache_data` memoization that
decorates `search_clinical_notes` and `get_patient_details` (source lines
249 and 278).  The decorator itself is Streamlit framework code, absent
from this repository; spec section 4.2 describes it as a map from the exact
argument tuple to a value and a fill timestamp. -/
structure CacheState (κ ν : Type) where
  entries : List (κ × ν × Nat)

/-- Modelled from the spec: storing a freshly computed value replaces any
previous entry for the same key. -/
def cacheStore {κ ν : Type} [DecidableEq κ] (st : CacheState κ ν) (k : κ)
    (v : ν) (now : Nat) : CacheState κ ν :=
  ⟨(k, v, now) :: st.entries.filter (fun e => decide (e.1 ≠ k))⟩

/-- Modelled from the spec: one cached call.  An entry is valid only while
`now - timestamp < ttl`; an expired entry is treated as absent and the
wrapped function is invoked again; keys match only on the exact argument
tuple.  The third component counts invocations of the wrapped function
(0 on a hit, 1 on a miss or expiry). -/
def cachedCall {κ ν : Type} [DecidableEq κ] (ttl : Nat) (fn : κ → ν)
    (st : CacheState κ ν) (k : κ) (now : Nat) : ν × CacheState κ ν × Nat :=
  match st.entries.find? (fun e => decide (e.1 = k)) with
  | some kvt =>
    if now - kvt.2.2 < ttl then (kvt.2.1, st, 0)
    else (fn k, cacheStore st k (fn k) now, 1)
  | none => (fn k, cacheStore st k (fn k) now, 1)

/-- Characters of a JSON string literal up to the first raw double quote:
how a JSON reader delimits the value of a string field. -/
def takeUntilQuote : List Char → List Char
  | [] => []
  | c :: cs => if c = '"' then [] else c :: takeUntilQuote cs

/-- Value of the `"query"` field as a JSON reader sees it: scan to the first
occurrence of the field marker, then read characters up to the next raw
double quote. -/
def scanQueryField : List Char → Option (List Char)
  | '"' :: 'q' :: 'u' :: 'e' :: 'r' :: 'y' :: '"' :: ':' :: ' ' :: '"' :: rest =>
    some (takeUntilQuote rest)
  | _ :: cs => scanQueryField cs
  | [] => none

/-- Characters after the first single quote: locates the start of the first
SQL string literal. -/
def afterFirstQuote : List Char → List Char
  | [] => []
  | c :: cs => if c = squote then cs else afterFirstQuote cs

/-- Value of the `NOTE_TYPE` equality-filter field as a JSON reader sees it:
scan to the first occurrence of the field marker (colon-quote, which in
the payload occurs only inside the filter clause, not in the columns
list), then read characters up to the next raw double quote. -/
def scanNoteTypeField : List Char → Option (List Char)
  | '"' :: 'N' :: 'O' :: 'T' :: 'E' :: '_' :: 'T' :: 'Y' :: 'P' :: 'E' :: '"' :: ':' :: ' ' :: '"' :: rest =>
    some (takeUntilQuote rest)
  | _ :: cs => scanNoteTypeField cs
  | [] => none

/-- The backslash character (code point 92). -/
def bslash : Char := Char.ofNat 92

/-- Character denoted by a Snowflake backslash escape sequence: the usual
control escapes, and any other character (a quote, a double quote, a
backslash, or an unrecognized escape) stands for itself. -/
def escChar (c : Char) : Char :=
  if c = 'b' then Char.ofNat 8
  else if c = 'f' then Char.ofNat 12
  else if c = 'n' then Char.ofNat 10
  else if c = 'r' then Char.ofNat 13
  else if c = 't' then Char.ofNat 9
  else if c = '0' then Char.ofNat 0
  else c

/-- Content of a Snowflake single-quoted string constant as its lexer reads
it: a backslash escapes the following character (so backslash-quote is a
quote character, not a terminator), a doubled quote stands for one quote
character, a lone quote closes the literal, a missing closing quote is an
error. -/
def snowLiteralChars : List Char → Option (List Char)
  | [] => none
  | [c] => if c = squote then some [] else none
  | c :: c2 :: cs =>
    if c = bslash then (snowLiteralChars cs).map (fun l => escChar c2 :: l)
    else if c = squote then
      if c2 = squote then (snowLiteralChars cs).map (fun l => squote :: l)
      else some []
    else (snowLiteralChars (c2 :: cs)).map (fun l => c :: l)

/-- Ordering of search rows by patient id, the order `groupby` leaves the
grouped frame in. -/
def leById (a b : SearchResult) : Prop := a.PATIENT_ID ≤ b.PATIENT_ID

theorem dedupFirstBy_subset (l : List SearchResult) :
    ∀ seen r, r ∈ dedupFirstBy seen l → r ∈ l := by
  induction l with
  | nil => intro seen r h; simp [dedupFirstBy] at h
  | cons x xs ih =>
    intro seen r h
    rw [dedupFirstBy] at h
    by_cases hx : x.PATIENT_ID ∈ seen
    · rw [if_pos hx] at h
      exact List.mem_cons_of_mem _ (ih seen r h)
    · rw [if_neg hx] at h
      rcases List.mem_cons.mp h with hrx | hr
      · exact hrx ▸ List.mem_cons_self _ _
      · exact List.mem_cons_of_mem _ (ih _ r hr)

theorem dedupFirstBy_first (l : List SearchResult) :
    ∀ seen r, r ∈ dedupFirstBy seen l →
      r.PATIENT_ID ∉ seen ∧ firstWithId r.PATIENT_ID l = some r := by
  induction l with
  | nil => intro seen r h; simp [dedupFirstBy] at h
  | cons x xs ih =>
    intro seen r h
    rw [dedupFirstBy] at h
    by_cases hx : x.PATIENT_ID ∈ seen
    · rw [if_pos hx] at h
      obtain ⟨hns, hfw⟩ := ih seen r h
      have hne : ¬ x.PATIENT_ID = r.PATIENT_ID := fun he => hns (he ▸ hx)
      refine ⟨hns, ?_⟩
      rw [firstWithId] at hfw ⊢
      simpa [List.find?, hne] using hfw
    · rw [if_neg hx] at h
      rcases List.mem_cons.mp h with hrx | hr
      · subst hrx
        refine ⟨hx, ?_⟩
        rw [firstWithId]
        simp [List.find?]
      · obtain ⟨hns, hfw⟩ := ih _ r hr
        have hne : ¬ x.PATIENT_ID = r.PATIENT_ID := by
          intro he
          exact hns (by rw [← he]; exact List.mem_cons_self _ _)
        refine ⟨fun hs => hns (List.mem_cons_of_mem _ hs), ?_⟩
        rw [firstWithId] at hfw ⊢
        simpa [List.find?, hne] using hfw

theorem dedupFirstBy_nodup_ids (l : List SearchResult) :
    ∀ seen, ((dedupFirstBy seen l).map (fun r => r.PATIENT_ID)).Nodup := by
  induction l with
  | nil => intro seen; simp [dedupFirstBy]
  | cons x xs ih =>
    intro seen
    rw [dedupFirstBy]
    by_cases hx : x.PATIENT_ID ∈ seen
    · rw [if_pos hx]; exact ih seen
    · rw [if_neg hx]
      rw [List.map_cons, List.nodup_cons]
      refine ⟨?_, ih _⟩
      intro hmem
      obtain ⟨r, hr, hid⟩ := List.mem_map.mp hmem
      have := (dedupFirstBy_first xs _ r hr).1
      exact this (by rw [hid]; exact List.mem_cons_self _ _)

theorem insertById_perm (r : SearchResult) (l : List SearchResult) :
    (insertById r l).Perm (r :: l) := by
  induction l with
  | nil => simp [insertById]
  | cons x xs ih =>
    rw [insertById]
    by_cases hle : r.PATIENT_ID ≤ x.PATIENT_ID
    · rw [if_pos hle]
    · rw [if_neg hle]
      exact (List.Perm.cons x ih).trans (List.Perm.swap r x xs)

theorem sortById_perm (l : List SearchResult) : (sortById l).Perm l := by
  induction l with
  | nil => simp [sortById]
  | cons x xs ih =>
    rw [sortById]
    exact (insertById_perm x (sortById xs)).trans (List.Perm.cons x ih)

theorem insertById_pairwise (r : SearchResult) (l : List SearchResult)
    (h : l.Pairwise leById) : (insertById r l).Pairwise leById := by
  induction l with
  | nil => simp [insertById, List.Pairwise]
  | cons x xs ih =>
    obtain ⟨h1, h2⟩ := List.pairwise_cons.mp h
    rw [insertById]
    by_cases hle : r.PATIENT_ID ≤ x.PATIENT_ID
    · rw [if_pos hle]
      refine List.pairwise_cons.mpr ⟨?_, h⟩
      intro b hb
      rcases List.mem_cons.mp hb with hbx | hbs
      · exact hbx ▸ hle
      · exact le_trans hle (h1 b hbs)
    · rw [if_neg hle]
      have hxr : x.PATIENT_ID ≤ r.PATIENT_ID := le_of_not_le hle
      refine List.pairwise_cons.mpr ⟨?_, ih h2⟩
      intro b hb
      have : b ∈ r :: xs := (insertById_perm r xs).mem_iff.mp hb
      rcases List.mem_cons.mp this with hbr | hbs
      · exact hbr ▸ hxr
      · exact h1 b hbs

theorem sortById_pairwise (l : List SearchResult) : (sortById l).Pairwise leById := by
  induction l with
  | nil => simp [sortById, List.Pairwise]
  | cons x xs ih => exact insertById_pairwise x (sortById xs) ih

/-- Concrete search hit with patient id 5. -/
def rowP5 : SearchResult := ⟨5, "Patient five note", "Progress Note", "2024-01-01", "Dr A"⟩

/-- Concrete search hit with patient id 3. -/
def rowP3 : SearchResult := ⟨3, "Patient three note", "Progress Note", "2024-01-02", "Dr B"⟩

/-- Concrete search hit with patient id 1. -/
def rowP1 : SearchResult := ⟨1, "Index patient note", "Progress Note", "2024-01-03", "Dr C"⟩

/-- Second concrete search hit with patient id 5. -/
def rowP5b : SearchResult := ⟨5, "Second note of patient five", "H&P Note", "2024-02-01", "Dr D"⟩

/-- Helper: the sequence an `Except.ok` result of `similarityAggregate`
holds is the take of the sorted deduplication of the filtered raw hits. -/
theorem similarityAggregate_ok (raw : List SearchResult) (exclude_id : Int)
    (max_results : Nat) (out : List SearchResult)
    (hout : similarityAggregate raw exclude_id max_results = Except.ok out) :
    out = (sortById (dedupFirstBy []
        (raw.filter (fun r => decide (r.PATIENT_ID ≠ exclude_id))))).take max_results := by
  rw [similarityAggregate] at hout
  by_cases hraw : raw.isEmpty
  · rw [if_pos hraw] at hout
    exact absurd hout (by intro h; exact Except.noConfusion h)
  · rw [if_neg hraw] at hout
    exact (Except.ok.inj hout).symm

/-- C1: for every raw search-result sequence, exclusion id and positive
`max_results`, every output the similarity post-processing produces
(filter out the excluded id, one representative row per patient id,
truncate) never contains a row of the excluded patient, contains at most
one row per distinct patient id, and has at most `max_results` rows.  (An
entirely empty raw sequence produces no output at all: the source raises
`KeyError` there, see C5; the invariants govern every produced output.) -/
theorem similarity_output_invariants (raw : List SearchResult) (exclude_id : Int)
    (max_results : Nat) (out : List SearchResult) (h : 0 < max_results)
    (hout : similarityAggregate raw exclude_id max_results = Except.ok out) :
    (∀ r ∈ out, r.PATIENT_ID ≠ exclude_id) ∧
    (out.map (fun r => r.PATIENT_ID)).Nodup ∧
    out.length ≤ max_results := by
  rw [similarityAggregate_ok raw exclude_id max_results out hout]
  refine ⟨?_, ?_, ?_⟩
  · intro r hr
    have hr1 := List.mem_of_mem_take hr
    have hr2 := (sortById_perm _).mem_iff.mp hr1
    have hr3 := dedupFirstBy_subset _ _ r hr2
    have := List.of_mem_filter hr3
    simpa using this
  · rw [List.map_take]
    have hperm := (sortById_perm
      (dedupFirstBy [] (raw.filter (fun r => decide (r.PATIENT_ID ≠ exclude_id))))).map
        (fun r => r.PATIENT_ID)
    have hs := hperm.nodup_iff.mpr (dedupFirstBy_nodup_ids _ [])
    exact hs.sublist (List.take_sublist _ _)
  · simp [List.length_take]

/-- Witness for C1 at a concrete input. -/
theorem similarity_output_invariants_witness :
    0 < 1 ∧
    similarityAggregate [rowP5, rowP3, rowP1] 5 1 = Except.ok [rowP1] ∧
    ((∀ r ∈ ([rowP1] : List SearchResult), r.PATIENT_ID ≠ 5) ∧
     (([rowP1] : List SearchResult).map (fun r => r.PATIENT_ID)).Nodup ∧
     ([rowP1] : List SearchResult).length ≤ 1) :=
  ⟨by decide, rfl,
    similarity_output_invariants [rowP5, rowP3, rowP1] 5 1 [rowP1] (by decide) rfl⟩

/-- C2 counterexample: the claim predicts the output keeps the upstream
relevance order, so for a search returning the id-5 row before the id-3 row
it predicts `Except.ok [rowP5, rowP3]`; the code's `groupby` sorts by
patient id and produces `Except.ok [rowP3, rowP5]`. -/
theorem find_similar_order_counterexample :
    (find_similar (fun _ _ _ => [rowP5, rowP3]) "chest pain history" 1 2).1
        = Except.ok [rowP3, rowP5] ∧
    (Except.ok [rowP3, rowP5] : Except String (List SearchResult))
      ≠ Except.ok [rowP5, rowP3] := by
  refine ⟨rfl, ?_⟩
  intro h
  exact absurd (Except.ok.inj h) (by decide)

/-- C2 amended: `find_similar` slices the index note to 500 code points and
searches with no filter and limit `2 × max_similar`; whenever it produces
an output (the search returned at least one row — a zero-hit search
instead raises `KeyError` at the `PATIENT_ID` filter on the column-less
empty frame), every output row is the first row of its patient id in the
filtered upstream sequence (the excluded index patient removed), and the
output is ordered by ascending patient id — not by the upstream relevance
order — with at most `max_similar` rows. -/
theorem find_similar_steps (search : String → Option String → Nat → List SearchResult)
    (note_text : String) (patient_id : Int) (max_similar : Nat) (out : List SearchResult)
    (hout : (find_similar search note_text patient_id max_similar).1 = Except.ok out) :
    (find_similar search note_text patient_id max_similar).2
        = (pySlice note_text 500, none, max_similar * 2) ∧
    search (pySlice note_text 500) none (max_similar * 2) ≠ [] ∧
    (∀ r ∈ out,
      firstWithId r.PATIENT_ID
        ((search (pySlice note_text 500) none (max_similar * 2)).filter
          (fun x => decide (x.PATIENT_ID ≠ patient_id))) = some r) ∧
    out.Pairwise leById ∧
    out.length ≤ max_similar := by
  have hbody : similarityAggregate (search (pySlice note_text 500) none (max_similar * 2))
      patient_id max_similar = Except.ok out := hout
  have hne : search (pySlice note_text 500) none (max_similar * 2) ≠ [] := by
    intro he
    rw [similarityAggregate, he] at hbody
    exact Except.noConfusion hbody
  have hshape := similarityAggregate_ok _ _ _ _ hbody
  rw [hshape]
  refine ⟨rfl, hne, ?_, ?_, ?_⟩
  · intro r hr
    have hr1 := List.mem_of_mem_take hr
    have hr2 := (sortById_perm _).mem_iff.mp hr1
    exact (dedupFirstBy_first _ [] r hr2).2
  · exact (sortById_pairwise _).sublist (List.take_sublist _ _)
  · simp [List.length_take]

/-- Witness for the amended C2 at a concrete input. -/
theorem find_similar_steps_witness :
    (find_similar (fun _ _ _ => [rowP5, rowP5b, rowP3, rowP1]) "chest pain history" 1 5).1
        = Except.ok [rowP3, rowP5] ∧
    ((find_similar (fun _ _ _ => [rowP5, rowP5b, rowP3, rowP1]) "chest pain history" 1 5).2
        = (pySlice "chest pain history" 500, none, 5 * 2) ∧
     ([rowP5, rowP5b, rowP3, rowP1] : List SearchResult) ≠ [] ∧
     (∀ r ∈ ([rowP3, rowP5] : List SearchResult),
       firstWithId r.PATIENT_ID
         (([rowP5, rowP5b, rowP3, rowP1] : List SearchResult).filter
           (fun x => decide (x.PATIENT_ID ≠ 1))) = some r) ∧
     ([rowP3, rowP5] : List SearchResult).Pairwise leById ∧
     ([rowP3, rowP5] : List SearchResult).length ≤ 5) :=
  ⟨rfl,
    find_similar_steps (fun _ _ _ => [rowP5, rowP5b, rowP3, rowP1])
      "chest pain history" 1 5 [rowP3, rowP5] rfl⟩

/-- C5 counterexample: the claim includes the entirely empty raw sequence
and asserts no error is raised, but there a zero-hit search has produced a
column-less empty frame (source lines 275-276) and the `PATIENT_ID`
selection at line 551 raises `KeyError` instead of returning an empty
sequence. -/
theorem similarity_empty_raises_counterexample :
    similarityAggregate [] 5 10 = Except.error "KeyError: PATIENT_ID" ∧
    (Except.error "KeyError: PATIENT_ID" : Except String (List SearchResult))
      ≠ Except.ok [] := by
  refine ⟨rfl, ?_⟩
  intro h
  exact Except.noConfusion h

/-- C5 amended: a non-empty raw sequence all of whose rows belong to the
excluded index patient yields the empty sequence without error (the
filtered frame is empty, the source skips the grouping); an entirely empty
raw sequence instead raises `KeyError: PATIENT_ID` on the column-less
empty frame. -/
theorem similarity_all_excluded_empty (raw : List SearchResult) (exclude_id : Int)
    (max_results : Nat) (hne : raw ≠ [])
    (h : ∀ r ∈ raw, r.PATIENT_ID = exclude_id) :
    similarityAggregate raw exclude_id max_results = Except.ok [] ∧
    similarityAggregate [] exclude_id max_results
      = Except.error "KeyError: PATIENT_ID" := by
  refine ⟨?_, rfl⟩
  rw [similarityAggregate]
  have hraw : raw.isEmpty = false := by
    cases raw with
    | nil => exact absurd rfl hne
    | cons a l => rfl
  rw [hraw]
  have hf : raw.filter (fun r => decide (r.PATIENT_ID ≠ exclude_id)) = [] := by
    rw [List.filter_eq_nil_iff]
    intro a ha
    simp [h a ha]
  simp only [Bool.false_eq_true, if_false, hf]
  simp [dedupFirstBy, sortById]

/-- Witness for the amended C5 at a concrete input. -/
theorem similarity_all_excluded_empty_witness :
    ([rowP5, rowP5b] : List SearchResult) ≠ [] ∧
    (∀ r ∈ ([rowP5, rowP5b] : List SearchResult), r.PATIENT_ID = 5) ∧
    (similarityAggregate [rowP5, rowP5b] 5 10 = Except.ok [] ∧
     similarityAggregate [] 5 10 = Except.error "KeyError: PATIENT_ID") :=
  ⟨by decide, by decide,
    similarity_all_excluded_empty [rowP5, rowP5b] 5 10 (by decide) (by decide)⟩

/-- C3 counterexample: the claim predicts an empty sequence for a malformed
(unparseable) payload, but `json.loads` raises on a payload it cannot
parse and `search_clinical_notes` has no error handling, so the error
propagates instead of yielding `Except.ok []`. -/
theorem search_malformed_counterexample :
    search_clinical_notes (fun _ => Except.ok [some "not valid json"])
        (fun _ => none) "fever and neutropenia" none 10
      = Except.error "json.loads: malformed payload" ∧
    (Except.error "json.loads: malformed payload" : Except String (List SearchResult))
      ≠ Except.ok [] := by
  refine ⟨rfl, ?_⟩
  intro h
  exact Except.noConfusion h

/-- C3 amended: zero hits — an empty row list, a NULL or empty `RESULTS`
field, or a payload parsing to an empty hit list — yield an empty sequence
without failing; but a payload the parser cannot read, or a raised SQL
error, propagates out of `search_clinical_notes` (the function has no
error handling). -/
theorem search_zero_hits_amended
    (remote : String → Except String (List (Option String)))
    (parse : String → Option (List SearchResult)) (s : String)
    (q : String) (f : Option String) (l : Nat) (e : String)
    (hs : parse s = some [])
    (he : remote (buildSearchSql q f l) = Except.error e) :
    search_post parse [] = Except.ok [] ∧
    search_post parse [none] = Except.ok [] ∧
    search_post parse [some s] = Except.ok [] ∧
    search_clinical_notes remote parse q f l = Except.error e := by
  refine ⟨rfl, rfl, ?_, ?_⟩
  · rw [search_post]
    by_cases h0 : s = ""
    · simp [h0]
    · simp [h0, hs]
  · rw [search_clinical_notes, he]

/-- Witness for the amended C3 at concrete inputs. -/
theorem search_zero_hits_amended_witness :
    (fun _ : String => (some [] : Option (List SearchResult))) "[]" = some [] ∧
    (fun _ : String => (Except.error "100069: Error parsing JSON" :
        Except String (List (Option String)))) (buildSearchSql "fever" none 10)
      = Except.error "100069: Error parsing JSON" ∧
    (search_post (fun _ => some []) [] = Except.ok [] ∧
     search_post (fun _ => some []) [none] = Except.ok [] ∧
     search_post (fun _ => some []) [some "[]"] = Except.ok [] ∧
     search_clinical_notes (fun _ => Except.error "100069: Error parsing JSON")
        (fun _ => some []) "fever" none 10
       = Except.error "100069: Error parsing JSON") :=
  ⟨rfl, rfl,
    search_zero_hits_amended (fun _ => Except.error "100069: Error parsing JSON")
      (fun _ => some []) "[]" "fever" none 10 "100069: Error parsing JSON" rfl rfl⟩

/-- C4 counterexample: the claim predicts the fixed placeholder string when
the remote completion call fails, but a raised failure propagates out of
`generate_ai_summary` (only the no-row case is handled). -/
theorem summary_failure_counterexample :
    (generate_ai_summary (fun _ => CompleteOutcome.raised "network error")
        "fever" [rowP5]).1 = Except.error "network error" ∧
    (Except.error "network error" : Except String String)
      ≠ Except.ok "Unable to generate summary." := by
  refine ⟨rfl, ?_⟩
  intro h
  exact Except.noConfusion h

/-- C4 amended: on a non-empty result sequence, a completion round trip that
returns no row yields the fixed string "Unable to generate summary.", but
a completion call that raises propagates its error (there is no
`try/except` in `generate_ai_summary`). -/
theorem summary_failure_amended (c1 c2 : String → CompleteOutcome) (query : String)
    (rs : List SearchResult) (e : String) (h : rs ≠ [])
    (h1 : c1 (buildCompleteSql (mkPrompt query rs)) = CompleteOutcome.noRows)
    (h2 : c2 (buildCompleteSql (mkPrompt query rs)) = CompleteOutcome.raised e) :
    (generate_ai_summary c1 query rs).1 = Except.ok "Unable to generate summary." ∧
    (generate_ai_summary c2 query rs).1 = Except.error e := by
  have hne : rs.isEmpty = false := by
    cases rs with
    | nil => exact absurd rfl h
    | cons a l => rfl
  constructor
  · simp [generate_ai_summary, hne, h1]
  · simp [generate_ai_summary, hne, h2]

/-- Witness for the amended C4 at concrete inputs. -/
theorem summary_failure_amended_witness :
    ([rowP5] : List SearchResult) ≠ [] ∧
    (fun _ : String => CompleteOutcome.noRows) (buildCompleteSql (mkPrompt "fever" [rowP5]))
      = CompleteOutcome.noRows ∧
    (fun _ : String => CompleteOutcome.raised "timeout") (buildCompleteSql (mkPrompt "fever" [rowP5]))
      = CompleteOutcome.raised "timeout" ∧
    ((generate_ai_summary (fun _ => CompleteOutcome.noRows) "fever" [rowP5]).1
        = Except.ok "Unable to generate summary." ∧
     (generate_ai_summary (fun _ => CompleteOutcome.raised "timeout") "fever" [rowP5]).1
        = Except.error "timeout") :=
  ⟨by decide, rfl, rfl,
    summary_failure_amended (fun _ => CompleteOutcome.noRows)
      (fun _ => CompleteOutcome.raised "timeout") "fever" [rowP5] "timeout"
      (by decide) rfl rfl⟩

/-- C6: on an empty result sequence `generate_ai_summary` returns exactly the
fixed string "No results found for your query." and issues no remote call
(its call log is empty), for every completion backend and query. -/
theorem summary_empty_short_circuit (complete : String → CompleteOutcome)
    (query : String) :
    generate_ai_summary complete query []
      = (Except.ok "No results found for your query.", []) := rfl

/-- C9: on a non-empty result sequence, `generate_ai_summary` issues exactly
one remote call whose SQL embeds the escaped prompt; the prompt depends
only on the first 3 results in arrival order and is unchanged if every
note text is pre-sliced to its first 500 code points (it only ever uses
those); the prompt embeds the original query verbatim; and when the round
trip returns a row, its text is returned unmodified. -/
theorem summary_prompt_construction (complete : String → CompleteOutcome)
    (query s : String) (rs : List SearchResult) (h : rs ≠ [])
    (hs : complete (buildCompleteSql (mkPrompt query rs)) = CompleteOutcome.row s) :
    (generate_ai_summary complete query rs).2 = [buildCompleteSql (mkPrompt query rs)] ∧
    mkPrompt query rs = mkPrompt query (rs.take 3) ∧
    mkContext rs = mkContext (rs.map (fun r => { r with NOTE_TEXT := pySlice r.NOTE_TEXT 500 })) ∧
    (∃ a b, mkPrompt query rs = a ++ (query ++ b)) ∧
    (generate_ai_summary complete query rs).1 = Except.ok s := by
  have hne : rs.isEmpty = false := by
    cases rs with
    | nil => exact absurd rfl h
    | cons a l => rfl
  refine ⟨?_, ?_, ?_, ?_, ?_⟩
  · simp [generate_ai_summary, hne, hs]
  · simp [mkPrompt, mkContext, List.take_take]
  · simp only [mkContext, ← List.map_take, List.enum_map, List.map_map]
    apply congrArg
    apply List.map_congr_left
    intro p _
    cases p with
    | mk i r => simp [Function.comp, pySlice, List.take_take]
  · refine ⟨"Based on the following clinical notes, provide a concise summary answering the query: \"",
      "\"\n\nClinical Notes:\n" ++ mkContext rs ++ "\n\nSummary:", ?_⟩
    simp [mkPrompt, String.append_assoc]
  · simp [generate_ai_summary, hne, hs]

/-- Witness for C9 at concrete inputs. -/
theorem summary_prompt_construction_witness :
    ([rowP5, rowP3, rowP1, rowP5b] : List SearchResult) ≠ [] ∧
    (fun _ : String => CompleteOutcome.row "Concise summary")
        (buildCompleteSql (mkPrompt "fever" [rowP5, rowP3, rowP1, rowP5b]))
      = CompleteOutcome.row "Concise summary" ∧
    ((generate_ai_summary (fun _ => CompleteOutcome.row "Concise summary")
        "fever" [rowP5, rowP3, rowP1, rowP5b]).2
        = [buildCompleteSql (mkPrompt "fever" [rowP5, rowP3, rowP1, rowP5b])] ∧
     mkPrompt "fever" [rowP5, rowP3, rowP1, rowP5b]
        = mkPrompt "fever" ([rowP5, rowP3, rowP1, rowP5b].take 3) ∧
     mkContext [rowP5, rowP3, rowP1, rowP5b]
        = mkContext ([rowP5, rowP3, rowP1, rowP5b].map
            (fun r => { r with NOTE_TEXT := pySlice r.NOTE_TEXT 500 })) ∧
     (∃ a b, mkPrompt "fever" [rowP5, rowP3, rowP1, rowP5b] = a ++ ("fever" ++ b)) ∧
     (generate_ai_summary (fun _ => CompleteOutcome.row "Concise summary")
        "fever" [rowP5, rowP3, rowP1, rowP5b]).1 = Except.ok "Concise summary") :=
  ⟨by decide, rfl,
    summary_prompt_construction (fun _ => CompleteOutcome.row "Concise summary")
      "fever" "Concise summary" [rowP5, rowP3, rowP1, rowP5b] (by decide) rfl⟩

/-- C10: passing the "All" sentinel as the note-type filter builds the same
SQL request as passing no filter, and hence `search_clinical_notes`
returns the same result, for every backend, parser, query and limit (the
filter clause is added only for a present, non-empty, non-"All" value). -/
theorem filter_all_equals_none
    (remote : String → Except String (List (Option String)))
    (parse : String → Option (List SearchResult)) (q : String) (l : Nat) :
    buildSearchSql q (some "All") l = buildSearchSql q none l ∧
    search_clinical_notes remote parse q (some "All") l
      = search_clinical_notes remote parse q none l := by
  have hfc : buildFilterClause (some "All") = buildFilterClause none := by
    rw [buildFilterClause, buildFilterClause]
    simp
  have hsql : buildSearchSql q (some "All") l = buildSearchSql q none l := by
    rw [buildSearchSql, buildSearchSql, buildSearchPayload, buildSearchPayload, hfc]
  refine ⟨hsql, ?_⟩
  rw [search_clinical_notes, search_clinical_notes, hsql]

/-- C7 (on the spec-modelled cache, since `st.cache_data` is framework code):
starting from an empty cache, the first call with key `k` invokes the
wrapped function; a second call with the identical key whose separation is
under the one-hour TTL returns the cached value and invokes nothing; a
call at or past TTL expiry invokes the function again; and a call with any
different key (however slight the difference) misses. -/
theorem cache_ttl_behaviour {κ ν : Type} [DecidableEq κ] (fn : κ → ν) (k k' : κ)
    (t1 t2 t3 : Nat) (h2 : t2 - t1 < 3600) (h3 : 3600 ≤ t3 - t1) (hk : k' ≠ k) :
    (cachedCall 3600 fn ⟨[]⟩ k t1).2.2 = 1 ∧
    (cachedCall 3600 fn (cachedCall 3600 fn ⟨[]⟩ k t1).2.1 k t2).1 = fn k ∧
    (cachedCall 3600 fn (cachedCall 3600 fn ⟨[]⟩ k t1).2.1 k t2).2.2 = 0 ∧
    (cachedCall 3600 fn (cachedCall 3600 fn ⟨[]⟩ k t1).2.1 k t3).2.2 = 1 ∧
    (cachedCall 3600 fn (cachedCall 3600 fn ⟨[]⟩ k t1).2.1 k' t2).2.2 = 1 := by
  have hst : (cachedCall 3600 fn ⟨[]⟩ k t1).2.1 = CacheState.mk [(k, fn k, t1)] := by
    simp [cachedCall, cacheStore, List.find?]
  have hnl : ¬ (t3 - t1 < 3600) := Nat.not_lt.mpr h3
  have hkk : ¬ (k = k') := fun he => hk he.symm
  refine ⟨by simp [cachedCall, List.find?], ?_, ?_, ?_, ?_⟩
  · rw [hst]; simp [cachedCall, List.find?, h2]
  · rw [hst]; simp [cachedCall, List.find?, h2]
  · rw [hst]; simp [cachedCall, List.find?, hnl]
  · rw [hst]; simp [cachedCall, cacheStore, List.find?, hkk]

/-- Witness for C7: the two argument tuples differ only by a trailing space
in the query text, and still miss. -/
theorem cache_ttl_behaviour_witness :
    100 - 0 < 3600 ∧ 3600 ≤ 3600 - 0 ∧
    (("fever ", none, 10) : String × Option String × Nat) ≠ ("fever", none, 10) ∧
    ((cachedCall 3600 (fun _ : String × Option String × Nat => (7 : Nat))
        ⟨[]⟩ ("fever", none, 10) 0).2.2 = 1 ∧
     (cachedCall 3600 (fun _ : String × Option String × Nat => (7 : Nat))
        (cachedCall 3600 (fun _ : String × Option String × Nat => (7 : Nat))
          ⟨[]⟩ ("fever", none, 10) 0).2.1 ("fever", none, 10) 100).1 = 7 ∧
     (cachedCall 3600 (fun _ : String × Option String × Nat => (7 : Nat))
        (cachedCall 3600 (fun _ : String × Option String × Nat => (7 : Nat))
          ⟨[]⟩ ("fever", none, 10) 0).2.1 ("fever", none, 10) 100).2.2 = 0 ∧
     (cachedCall 3600 (fun _ : String × Option String × Nat => (7 : Nat))
        (cachedCall 3600 (fun _ : String × Option String × Nat => (7 : Nat))
          ⟨[]⟩ ("fever", none, 10) 0).2.1 ("fever", none, 10) 3600).2.2 = 1 ∧
     (cachedCall 3600 (fun _ : String × Option String × Nat => (7 : Nat))
        (cachedCall 3600 (fun _ : String × Option String × Nat => (7 : Nat))
          ⟨[]⟩ ("fever", none, 10) 0).2.1 ("fever ", none, 10) 100).2.2 = 1) :=
  ⟨by decide, by decide, by decide,
    cache_ttl_behaviour (fun _ => (7 : Nat)) ("fever", none, 10) ("fever ", none, 10)
      0 100 3600 (by decide) (by decide) (by decide)⟩

/-- A Snowflake-injection probe for the MRN lookup: the classic
quote-OR-quote payload, built with explicit quote characters. -/
def mrnInjection : String :=
  "123" ++ sqStr ++ " OR " ++ sqStr ++ "1" ++ sqStr ++ "=" ++ sqStr ++ "1"

/-- C8 counterexample: the search query text is interpolated raw into the
JSON request (source line 262), so for a query containing a double quote
the reader of the constructed payload sees the query string end at that
quote: the query field of the request is "a", not the caller's string, and
the rest of the input leaks into the request structure. -/
theorem injection_counterexample :
    scanQueryField (buildSearchPayload "a\"b" none 10).data = some ("a" : String).data ∧
    ("a" : String).data ≠ ("a\"b" : String).data := by
  constructor
  · decide
  · decide

/-- One-character string holding a backslash. -/
def bsStr : String := String.mk [bslash]

/-- A prompt containing a backslash followed by a single quote.  Quote
doubling turns its tail into backslash-quote-quote, which the Snowflake
lexer reads as two escaped quote characters, so the literal's real closing
quote is consumed and the statement never terminates the literal. -/
def promptInjection : String := "clinical note " ++ bsStr ++ sqStr

/-- A category-filter value containing a double quote, which terminates the
`NOTE_TYPE` JSON string of the filter clause early. -/
def filterInjection : String := "Progress\" Note"

/-- Helper for the amended C8: reading a Snowflake single-quoted literal
whose backslash-free content was escaped by quote-doubling, followed by
the closing quote and the remaining statement text starting with a
newline, recovers exactly the original content. -/
theorem snowLiteralChars_escape (l : List Char) (r : List Char) (hl : bslash ∉ l) :
    snowLiteralChars (sqlEscapeChars l ++ squote :: '\n' :: r) = some l := by
  induction l with
  | nil =>
    have hq : ¬ (squote = bslash) := by decide
    have hnl : ¬ ('\n' = squote) := by decide
    have h0 : sqlEscapeChars [] ++ squote :: '\n' :: r = squote :: '\n' :: r := rfl
    rw [h0]
    simp [snowLiteralChars, hq, hnl]
  | cons c cs ih =>
    have hcb : ¬ (c = bslash) := fun h => hl (by rw [← h]; exact List.mem_cons_self _ _)
    have hcs : bslash ∉ cs := fun h => hl (List.mem_cons_of_mem _ h)
    by_cases hc : c = squote
    · subst hc
      have hq : ¬ (squote = bslash) := by decide
      have h1 : sqlEscapeChars (squote :: cs) = squote :: squote :: sqlEscapeChars cs := by
        rw [sqlEscapeChars]; simp
      rw [h1, List.cons_append, List.cons_append]
      simp [snowLiteralChars, hq, ih hcs]
    · have h1 : sqlEscapeChars (c :: cs) = c :: sqlEscapeChars cs := by
        rw [sqlEscapeChars]; simp [hc]
      rw [h1]
      cases htail : sqlEscapeChars cs ++ squote :: '\n' :: r with
      | nil => simp at htail
      | cons d ds =>
        rw [List.cons_append, htail]
        rw [snowLiteralChars, if_neg hcb, if_neg hc, ← htail, ih hcs]
        rfl

/-- C8 amended: none of the interpolated fields is strictly parameterized.
The prompt's quote-doubling embeds every backslash-free prompt as data
(the Snowflake lexer recovers it exactly), but a backslash-quote prompt
defeats it (the lexer never finds the end of the literal); the search
query text, the category filter value and the MRN are interpolated raw: a
quote-free query is embedded as data, while a double quote in the filter
value ends its JSON string early and the quote-OR-quote MRN probe is read
by the lexer as the literal "123" with the rest leaking into the
statement. -/
theorem injection_amended (p : String) (hp : bslash ∉ p.data) :
    buildCompleteSql p = completeSqlHead ++ (sqlEscape p ++ completeSqlTail) ∧
    snowLiteralChars ((sqlEscape p ++ completeSqlTail).data) = some p.data ∧
    snowLiteralChars ((sqlEscape promptInjection ++ completeSqlTail).data) = none ∧
    scanQueryField (buildSearchPayload "leukemia" none 10).data = some ("leukemia" : String).data ∧
    scanNoteTypeField (buildSearchPayload "leukemia" (some filterInjection) 10).data
      = some ("Progress" : String).data ∧
    ("Progress" : String) ≠ filterInjection ∧
    snowLiteralChars (afterFirstQuote (buildMrnSql mrnInjection).data) = some ("123" : String).data ∧
    ("123" : String) ≠ mrnInjection := by
  refine ⟨?_, ?_, by decide, by decide, by decide, by decide, by decide, by decide⟩
  · simp [buildCompleteSql, String.append_assoc]
  · have ht : completeSqlTail.data = squote :: '\n' :: ("    ) as summary\n    " : String).data := rfl
    rw [String.data_append, ht]
    exact snowLiteralChars_escape p.data _ hp

/-- Witness for the amended C8 at a concrete backslash-free prompt. -/
theorem injection_amended_witness :
    bslash ∉ ("summarize the fever cases" : String).data ∧
    (buildCompleteSql "summarize the fever cases"
        = completeSqlHead ++ (sqlEscape "summarize the fever cases" ++ completeSqlTail) ∧
     snowLiteralChars ((sqlEscape "summarize the fever cases" ++ completeSqlTail).data)
        = some ("summarize the fever cases" : String).data ∧
     snowLiteralChars ((sqlEscape promptInjection ++ completeSqlTail).data) = none ∧
     scanQueryField (buildSearchPayload "leukemia" none 10).data = some ("leukemia" : String).data ∧
     scanNoteTypeField (buildSearchPayload "leukemia" (some filterInjection) 10).data
        = some ("Progress" : String).data ∧
     ("Progress" : String) ≠ filterInjection ∧
     snowLiteralChars (afterFirstQuote (buildMrnSql mrnInjection).data) = some ("123" : String).data ∧
     ("123" : String) ≠ mrnInjection) :=
  ⟨by decide, injection_amended "summarize the fever cases" (by decide)⟩
